import Mathlib

/-!
Formal model of the 3d-ascii-effects rendering components: the ASCII
pattern shader's index selection, the color-adjustment chain, the pattern
atlas sampling and fallback rule, the per-frame pass sequencing of the two
card components, and the ping-pong buffer pair.

All numeric shader arithmetic is modelled over `ℚ`; GLSL `clamp`, `mix`,
`floor` and int conversion are translated to their exact rational and
integer counterparts.
-/

namespace AsciiEffects

/-- GLSL `clamp(x, 0.0, 1.0)` on a scalar. -/
def clamp01 (x : ℚ) : ℚ := min (max x 0) 1

/-- GLSL `clamp` on integers, as used in `clamp(patternIndex, 0, 5)`. -/
def clampI (x lo hi : ℤ) : ℤ := min (max x lo) hi

/-- GLSL `mix(x, y, a) = x * (1 - a) + y * a`. -/
def glslMix (x y a : ℚ) : ℚ := x * (1 - a) + y * a

/-- An RGB color triple. -/
structure RGB where
  r : ℚ
  g : ℚ
  b : ℚ
deriving DecidableEq, Repr

/-- An RGBA texture sample. -/
structure RGBA where
  r : ℚ
  g : ℚ
  b : ℚ
  a : ℚ
deriving DecidableEq, Repr

/-- `calculateLuminance` from the ascii fragment shader:
`0.299 * r + 0.587 * g + 0.114 * b`. -/
def calculateLuminance (c : RGB) : ℚ :=
  299/1000 * c.r + 587/1000 * c.g + 114/1000 * c.b

/-- `adjustSaturation`: `mix(vec3(calculateLuminance(color)), color, saturation)`. -/
def adjustSaturation (c : RGB) (saturation : ℚ) : RGB :=
  ⟨glslMix (calculateLuminance c) c.r saturation,
   glslMix (calculateLuminance c) c.g saturation,
   glslMix (calculateLuminance c) c.b saturation⟩

/-- `adjustBrightness`: `clamp(color + brightness, 0.0, 1.0)`. -/
def adjustBrightness (c : RGB) (brightness : ℚ) : RGB :=
  ⟨clamp01 (c.r + brightness), clamp01 (c.g + brightness), clamp01 (c.b + brightness)⟩

/-- `adjustContrast`: `clamp((color - 0.5) * contrast + 0.5, 0.0, 1.0)`. -/
def adjustContrast (c : RGB) (contrast : ℚ) : RGB :=
  ⟨clamp01 ((c.r - 1/2) * contrast + 1/2), clamp01 ((c.g - 1/2) * contrast + 1/2),
   clamp01 ((c.b - 1/2) * contrast + 1/2)⟩

/-- `adjustExposure`: `clamp(color * pow(2.0, exposure), 0.0, 1.0)`.
`pow(2.0, exposure)` is transcendental for non-integer exposure, so the
embedding takes the gain `pow(2.0, exposure)` itself as the parameter; it is
positive for every exposure value. -/
def adjustExposure (c : RGB) (gain : ℚ) : RGB :=
  ⟨clamp01 (c.r * gain), clamp01 (c.g * gain), clamp01 (c.b * gain)⟩

/-- `processImageColor`: exposure, then brightness, then contrast, then
saturation, exactly in the order of the shader source. -/
def processImageColor (c : RGB) (gain brightness contrast saturation : ℚ) : RGB :=
  adjustSaturation
    (adjustContrast (adjustBrightness (adjustExposure c gain) brightness) contrast)
    saturation

/-- A color lies in the unit cube `[0,1]³`. -/
def inUnitCube (c : RGB) : Prop :=
  0 ≤ c.r ∧ c.r ≤ 1 ∧ 0 ≤ c.g ∧ c.g ≤ 1 ∧ 0 ≤ c.b ∧ c.b ≤ 1

/-- Pattern index selection from the ascii fragment shader `main`, as a
function of the (already inverted) luminance:
`scaled = lum * 5.0`; index `0` when `scaled < 0.5`,
`int(floor(scaled * 0.8)) + 1` when `scaled < 3.5`, `4` when `scaled < 5.0`,
else `5`; before the final clamp. -/
def patternIndexPre (lum : ℚ) : ℤ :=
  if lum * 5 < 1/2 then 0
  else if lum * 5 < 7/2 then ⌊lum * 5 * (4/5)⌋ + 1
  else if lum * 5 < 5 then 4
  else 5

/-- The pattern index after `clamp(patternIndex, 0, 5)`. -/
def patternIndexOf (lum : ℚ) : ℤ := clampI (patternIndexPre lum) 0 5

/-- The luminance inversion in the shader: `lum = 0.85 - lum`. The offset
is the literal constant `0.85` in the shader source. -/
def invertedLuminance (lum : ℚ) : ℚ := 85/100 - lum

/-- The full luminance-to-index computation the shader performs. -/
def shaderPatternIndex (lum : ℚ) : ℤ := patternIndexOf (invertedLuminance lum)

/-- `samplePatternAtlas`: column-mapped atlas lookup,
`atlasUV = (uv / vec2(columns, 1)) + (index / columns, 0)`. -/
def samplePatternAtlas (atlas : ℚ × ℚ → RGBA) (atlasColumns : ℤ) (patternIndex : ℤ)
    (uv : ℚ × ℚ) : RGBA :=
  atlas (uv.1 / (atlasColumns : ℚ) + (patternIndex : ℚ) / (atlasColumns : ℚ), uv.2)

/-- The background color: white in light mode, black in dark mode. -/
def backgroundColorOf (darkMode : Bool) : RGB :=
  if darkMode then ⟨0, 0, 0⟩ else ⟨1, 1, 1⟩

/-- The `useOriginalColors = false` branch of `getColorForIntensity`: a fixed
grayscale palette by pattern index (all entries `0.33` in dark mode), or the
background color when the sampled pattern alpha is below `0.001`. -/
def getColorForIntensityRegular (darkMode : Bool) (patternIndex : ℤ) (patternAlpha : ℚ) : RGB :=
  let backgroundColor := backgroundColorOf darkMode
  let color1 : RGB := if darkMode then ⟨33/100, 33/100, 33/100⟩ else ⟨949/1000, 949/1000, 949/1000⟩
  let color2 : RGB := if darkMode then ⟨33/100, 33/100, 33/100⟩ else ⟨91/100, 91/100, 91/100⟩
  let color2b : RGB := if darkMode then ⟨33/100, 33/100, 33/100⟩ else ⟨925/1000, 925/1000, 925/1000⟩
  let color3 : RGB := if darkMode then ⟨33/100, 33/100, 33/100⟩ else ⟨98/100, 98/100, 98/100⟩
  let color4 : RGB := if darkMode then ⟨33/100, 33/100, 33/100⟩ else ⟨99/100, 99/100, 99/100⟩
  if patternAlpha < 1/1000 then backgroundColor
  else if patternIndex ≤ 1 then color1
  else if patternIndex = 2 then color2
  else if patternIndex = 3 then color2b
  else if patternIndex ≤ 4 then color3
  else color4

/-- `regularNeedsFallback`: every channel at least `0.999`. -/
def regularNeedsFallback (c : RGB) : Prop :=
  999/1000 ≤ c.r ∧ 999/1000 ≤ c.g ∧ 999/1000 ≤ c.b

instance (c : RGB) : Decidable (regularNeedsFallback c) := by
  unfold regularNeedsFallback; infer_instance

/-- The column re-sampled by the fallback: `columns - 2` for pattern
indices at most `2`, `columns - 3` otherwise. -/
def fallbackColumn (atlasColumns patternIndex : ℤ) : ℤ :=
  if patternIndex ≤ 2 then atlasColumns - 2 else atlasColumns - 3

/-- The `regularNeedsFallback` substitution block of the ascii shader `main`. -/
def applyRegularFallback (atlas : ℚ × ℚ → RGBA) (atlasColumns : ℤ) (darkMode : Bool)
    (patternIndex : ℤ) (patternUV : ℚ × ℚ) (regularColor : RGB) : RGB :=
  if regularNeedsFallback regularColor then
    let fb := samplePatternAtlas atlas atlasColumns
      (fallbackColumn atlasColumns patternIndex) patternUV
    if fb.a < 1/1000 then backgroundColorOf darkMode
    else ⟨925/1000, 925/1000, 925/1000⟩
  else regularColor

/-- The shader-relevant configuration accepted by `Card3DAscii` and
forwarded as props to `Scene3DAscii`. -/
structure Card3DCfg where
  tileSize : ℚ
  useBlockyPattern : Bool
  darkMode : Bool
  saturation : ℚ
  brightness : ℚ
  contrast : ℚ
  exposure : ℚ
  animationSpeed : ℚ
  luminanceOffset : ℚ
  fadeThreshold : ℚ
  fadeWidth : ℚ
  patternOpacity : ℚ
  enableFadeTransition : Bool
  invertLuminance : Bool
deriving DecidableEq, Repr

/-- The ascii-material uniform values assigned each frame in
`Scene3DAscii.useFrame` (the time uniform is `timeRef * animationSpeed`, so
its configuration-dependent part is the `animationSpeed` factor). -/
structure AsciiUniforms where
  uTimeScale : ℚ
  uBaseTileSize : ℚ
  uSaturation : ℚ
  uBrightness : ℚ
  uContrast : ℚ
  uExposure : ℚ
  uDarkMode : ℚ
  uPatternAtlasColumns : ℤ
  uAltPatternAtlasColumns : ℤ
  uFadeThreshold : ℚ
  uFadeWidth : ℚ
  uAltPatternOpacity : ℚ
  uEnableFadeTransition : ℚ
deriving DecidableEq, Repr

/-- The per-frame uniform assignment of `Scene3DAscii.useFrame`: every
uniform written there, as a function of the configuration. No uniform is
computed from `luminanceOffset` or `invertLuminance`. -/
def asciiUniformsOf (cfg : Card3DCfg) : AsciiUniforms :=
  ⟨cfg.animationSpeed, cfg.tileSize, cfg.saturation, cfg.brightness, cfg.contrast,
   cfg.exposure, if cfg.darkMode then 1 else 0,
   if cfg.useBlockyPattern then 6 else 4, 6,
   cfg.fadeThreshold, cfg.fadeWidth, cfg.patternOpacity,
   if cfg.enableFadeTransition then 1 else 0⟩

/-- `DoubleFBO`: a ping-pong pair of render targets. -/
structure DoubleFBO (α : Type) where
  read : α
  write : α
deriving DecidableEq, Repr

/-- `DoubleFBO.swap`: exchange the read and write targets. -/
def DoubleFBO.swap {α : Type} (f : DoubleFBO α) : DoubleFBO α := ⟨f.write, f.read⟩

/-- The `advectionShader`: resample the source field at
`uv - dt * velocity(uv) * texelSize` and multiply by the dissipation
(the alpha channel is forced to `1` and is omitted here). -/
def advect (dt : ℚ) (texelSize : ℚ × ℚ) (dissipation : ℚ)
    (velocity : ℚ × ℚ → ℚ × ℚ) (source : ℚ × ℚ → ℚ × ℚ × ℚ) (uv : ℚ × ℚ) : ℚ × ℚ × ℚ :=
  let v := velocity uv
  let coord := (uv.1 - dt * v.1 * texelSize.1, uv.2 - dt * v.2 * texelSize.2)
  let s := source coord
  (dissipation * s.1, dissipation * s.2.1, dissipation * s.2.2)

/-- JavaScript `Math.round` (round half away from zero; the sizes rounded in
the source are positive, so round-half-up is exact here). -/
def jsRound (x : ℚ) : ℤ := ⌊x + 1/2⌋

/-- One GPU render pass issued by a `useFrame` callback, in issue order.
`present` records the value of `autoClear` in effect during the final blit. -/
inductive Pass
  | fillDensity
  | splatVelocity
  | splatDensity
  | advectVelocity (dissipation : ℚ)
  | advectDensity (dissipation : ℚ)
  | capture
  | compositeAscii
  | compositeFilter
  | present (autoClear : Bool)
deriving DecidableEq, Repr

/-- Whether a pass belongs to the fluid SIMULATE stage (splat or advect). -/
def isSimulatePass : Pass → Bool
  | Pass.splatVelocity => true
  | Pass.splatDensity => true
  | Pass.advectVelocity _ => true
  | Pass.advectDensity _ => true
  | _ => false

/-- The shared renderer state a callback must save and restore:
the active render target (`none` is the visible canvas) and `autoClear`. -/
structure GLState where
  renderTarget : Option ℤ
  autoClear : Bool
deriving DecidableEq, Repr

/-- The inputs of one `Scene3DAscii.useFrame` invocation. -/
structure Scene3DCfg where
  shaderAscii : Bool
  atlasesLoaded : Bool
  customShaderPresent : Bool
  enablePainting : Bool
  isCardHovered : Bool
  mouseUV : ℚ × ℚ
  velocityDissipation : ℚ
  densityDissipation : ℚ
  width : ℚ
  height : ℚ
  dpr : ℚ
deriving DecidableEq, Repr

/-- The mutable refs of `Scene3DAscii` read and written by `useFrame`. -/
structure Scene3DState where
  densityInitDone : Bool
  isMouseInit : Bool
  lastMouse : ℚ × ℚ
deriving DecidableEq, Repr

/-- The observable outcome of one `Scene3DAscii.useFrame` invocation. -/
structure Scene3DOut where
  trace : List Pass
  gl : GLState
  state : Scene3DState
  compositeSize : Option (ℤ × ℤ)
deriving DecidableEq, Repr

/-- The early-return guards of `Scene3DAscii.useFrame`: the ascii effect
waits for both pattern atlases, any other filter for its material. -/
def scene3DEarlyReturn (cfg : Scene3DCfg) : Prop :=
  (cfg.shaderAscii = true ∧ cfg.atlasesLoaded = false) ∨
  (cfg.shaderAscii = false ∧ cfg.customShaderPresent = false)

instance (cfg : Scene3DCfg) : Decidable (scene3DEarlyReturn cfg) := by
  unfold scene3DEarlyReturn; infer_instance

/-- The guard of the fluid-simulation block in `Scene3DAscii.useFrame`:
`shaderType === 'ascii' && enablePainting && isCardHovered && mouseUV.x >= 0 && mouseUV.y >= 0`. -/
def scene3DSimGate (cfg : Scene3DCfg) : Prop :=
  cfg.shaderAscii = true ∧ cfg.enablePainting = true ∧ cfg.isCardHovered = true ∧
    0 ≤ cfg.mouseUV.1 ∧ 0 ≤ cfg.mouseUV.2

instance (cfg : Scene3DCfg) : Decidable (scene3DSimGate cfg) := by
  unfold scene3DSimGate; infer_instance

/-- The one-time density fill: two flat-fill renders (both ping-pong slots),
only for the ascii effect and only before it has happened once. -/
def scene3DInitPasses (cfg : Scene3DCfg) (st : Scene3DState) : List Pass :=
  if cfg.shaderAscii = true ∧ st.densityInitDone = false then
    [Pass.fillDensity, Pass.fillDensity]
  else []

/-- `deltaX = (mouseUV.x - lastMouse.x) * 100`. -/
def scene3DDeltaX (cfg : Scene3DCfg) (st : Scene3DState) : ℚ :=
  (cfg.mouseUV.1 - st.lastMouse.1) * 100

/-- `deltaY = (mouseUV.y - lastMouse.y) * 100`. -/
def scene3DDeltaY (cfg : Scene3DCfg) (st : Scene3DState) : ℚ :=
  (cfg.mouseUV.2 - st.lastMouse.2) * 100

/-- The splat renders: inside the simulation gate, skipped on the first
hovered frame (mouse ref not yet initialized) and below the deadband
`|deltaX| > 0.1 || |deltaY| > 0.1`. -/
def scene3DSplatPasses (cfg : Scene3DCfg) (st : Scene3DState) : List Pass :=
  if scene3DSimGate cfg then
    if st.isMouseInit = false then []
    else if 1/10 < |scene3DDeltaX cfg st| ∨ 1/10 < |scene3DDeltaY cfg st| then
      [Pass.splatVelocity, Pass.splatDensity]
    else []
  else []

/-- The advection renders: inside the simulation gate, velocity first
(advected by itself) then density, with the configured dissipations. -/
def scene3DAdvectPasses (cfg : Scene3DCfg) : List Pass :=
  if scene3DSimGate cfg then
    [Pass.advectVelocity cfg.velocityDissipation, Pass.advectDensity cfg.densityDissipation]
  else []

/-- The unconditional tail of the frame: scene capture into `sceneFBO`,
composite (ascii pattern pass or the selected filter pass) into
`patternFBO`, and the final blit with `autoClear` set to `false`. -/
def scene3DTailPasses (cfg : Scene3DCfg) : List Pass :=
  [Pass.capture,
   if cfg.shaderAscii = true then Pass.compositeAscii else Pass.compositeFilter,
   Pass.present false]

/-- `densityInitializedRef` after the frame. -/
def scene3DDensityInitAfter (cfg : Scene3DCfg) (st : Scene3DState) : Bool :=
  if cfg.shaderAscii = true ∧ st.densityInitDone = false then true else st.densityInitDone

/-- `isMouseInitRef` after the frame. -/
def scene3DMouseInitAfter (cfg : Scene3DCfg) (st : Scene3DState) : Bool :=
  if scene3DSimGate cfg then true else st.isMouseInit

/-- `lastMouseRef` after the frame. -/
def scene3DLastMouseAfter (cfg : Scene3DCfg) (st : Scene3DState) : ℚ × ℚ :=
  if scene3DSimGate cfg then cfg.mouseUV else st.lastMouse

/-- One invocation of `Scene3DAscii.useFrame`: the early returns, the saved
`prevTarget` and `prevAutoClear`, the pass sequence, the ref updates, the
`patternFBO.setSize` to `round(size * 2 * devicePixelRatio)`, and the final
restore of the render target and `autoClear`. -/
def scene3DFrame (cfg : Scene3DCfg) (st : Scene3DState) (g0 : GLState) : Scene3DOut :=
  if scene3DEarlyReturn cfg then ⟨[], g0, st, none⟩
  else
    ⟨scene3DInitPasses cfg st ++ scene3DSplatPasses cfg st ++
       scene3DAdvectPasses cfg ++ scene3DTailPasses cfg,
     ⟨g0.renderTarget, g0.autoClear⟩,
     ⟨scene3DDensityInitAfter cfg st, scene3DMouseInitAfter cfg st,
      scene3DLastMouseAfter cfg st⟩,
     some (jsRound (cfg.width * 2 * cfg.dpr), jsRound (cfg.height * 2 * cfg.dpr))⟩

/-- The inputs of one `AsciiFluidScene.useFrame` invocation
(the 2D-image component `CardAsciiPattern`). -/
structure FluidCfg where
  texturesLoaded : Bool
  enableInteractivity : Bool
  isHovered : Bool
  mouse : ℚ × ℚ
  width : ℚ
  height : ℚ
  dpr : ℚ
deriving DecidableEq, Repr

/-- The mutable refs of `AsciiFluidScene` read and written by `useFrame`. -/
structure FluidState where
  isMouseInit : Bool
  lastMouse : ℚ × ℚ
deriving DecidableEq, Repr

/-- The observable outcome of one `AsciiFluidScene.useFrame` invocation. -/
structure FluidOut where
  trace : List Pass
  gl : GLState
  state : FluidState
  compositeSize : Option (ℤ × ℤ)
deriving DecidableEq, Repr

/-- The splat guard in `AsciiFluidScene.useFrame`:
`enableInteractivity && isHoveredRef.current`. -/
def fluidSplatGate (cfg : FluidCfg) : Prop :=
  cfg.enableInteractivity = true ∧ cfg.isHovered = true

instance (cfg : FluidCfg) : Decidable (fluidSplatGate cfg) := by
  unfold fluidSplatGate; infer_instance

/-- The splat renders of `AsciiFluidScene.useFrame`, with the same first
frame initialization and `|delta| > 0.1` deadband as the 3D component. -/
def fluidSplatPasses (cfg : FluidCfg) (st : FluidState) : List Pass :=
  if fluidSplatGate cfg then
    if st.isMouseInit = false then []
    else if 1/10 < |(cfg.mouse.1 - st.lastMouse.1) * 100| ∨
              1/10 < |(cfg.mouse.2 - st.lastMouse.2) * 100| then
      [Pass.splatVelocity, Pass.splatDensity]
    else []
  else []

/-- `isMouseInitRef` after the frame. -/
def fluidMouseInitAfter (cfg : FluidCfg) (st : FluidState) : Bool :=
  if fluidSplatGate cfg then true else st.isMouseInit

/-- `lastMouseRef` after the frame. -/
def fluidLastMouseAfter (cfg : FluidCfg) (st : FluidState) : ℚ × ℚ :=
  if fluidSplatGate cfg then cfg.mouse else st.lastMouse

/-- One invocation of `AsciiFluidScene.useFrame`: waits for the image and
both atlases, optionally splats, then always advects velocity (dissipation
`0.9`) and density (dissipation `0.96`), renders the pattern pass and blits
with `autoClear` `false`, restoring the saved renderer state at the end. -/
def asciiFluidFrame (cfg : FluidCfg) (st : FluidState) (g0 : GLState) : FluidOut :=
  if cfg.texturesLoaded = false then ⟨[], g0, st, none⟩
  else
    ⟨fluidSplatPasses cfg st ++
       [Pass.advectVelocity (9/10), Pass.advectDensity (96/100),
        Pass.compositeAscii, Pass.present false],
     ⟨g0.renderTarget, g0.autoClear⟩,
     ⟨fluidMouseInitAfter cfg st, fluidLastMouseAfter cfg st⟩,
     some (jsRound (cfg.width * 2 * cfg.dpr), jsRound (cfg.height * 2 * cfg.dpr))⟩

/-- The `velocityDissipation` default of `Card3DAscii`. -/
def velocityDissipationDefault : ℚ := 9/10

/-- The `densityDissipation` default of `Card3DAscii`. -/
def densityDissipationDefault : ℚ := 98/100

/-! ### Pattern index selection: region lemmas, bounds, monotonicity -/

theorem patternIndexPre_low {a : ℚ} (h : a * 5 < 1/2) : patternIndexPre a = 0 := by
  unfold patternIndexPre
  rw [if_pos h]

theorem patternIndexPre_mid {a : ℚ} (h1 : ¬ a * 5 < 1/2) (h2 : a * 5 < 7/2) :
    patternIndexPre a = ⌊a * 5 * (4/5)⌋ + 1 := by
  unfold patternIndexPre
  rw [if_neg h1, if_pos h2]

theorem patternIndexPre_hi4 {a : ℚ} (h2 : ¬ a * 5 < 7/2) (h3 : a * 5 < 5) :
    patternIndexPre a = 4 := by
  have h1 : ¬ a * 5 < 1/2 := by push_neg at h2 ⊢; linarith
  unfold patternIndexPre
  rw [if_neg h1, if_neg h2, if_pos h3]

theorem patternIndexPre_hi5 {a : ℚ} (h3 : ¬ a * 5 < 5) : patternIndexPre a = 5 := by
  have h1 : ¬ a * 5 < 1/2 := by push_neg at h3 ⊢; linarith
  have h2 : ¬ a * 5 < 7/2 := by push_neg at h3 ⊢; linarith
  unfold patternIndexPre
  rw [if_neg h1, if_neg h2, if_neg h3]

theorem patternIndexPre_nonneg (a : ℚ) : 0 ≤ patternIndexPre a := by
  unfold patternIndexPre
  split_ifs with h1 h2 h3
  · omega
  · have hf : (0:ℤ) ≤ ⌊a * 5 * (4/5)⌋ := by
      apply Int.le_floor.mpr
      push_cast
      push_neg at h1
      linarith
    omega
  · omega
  · omega

theorem patternIndexPre_mono {a b : ℚ} (h : a ≤ b) :
    patternIndexPre a ≤ patternIndexPre b := by
  by_cases ha1 : a * 5 < 1/2
  · rw [patternIndexPre_low ha1]
    exact patternIndexPre_nonneg b
  · by_cases ha2 : a * 5 < 7/2
    · by_cases hb2 : b * 5 < 7/2
      · have hb1 : ¬ b * 5 < 1/2 := by push_neg at ha1 ⊢; linarith
        rw [patternIndexPre_mid ha1 ha2, patternIndexPre_mid hb1 hb2]
        have hfl : ⌊a * 5 * (4/5)⌋ ≤ ⌊b * 5 * (4/5)⌋ := Int.floor_le_floor (by linarith)
        omega
      · have h3a : patternIndexPre a ≤ 3 := by
          rw [patternIndexPre_mid ha1 ha2]
          have hf : ⌊a * 5 * (4/5)⌋ < 3 := Int.floor_lt.mpr (by push_cast; linarith)
          omega
        have h4b : 4 ≤ patternIndexPre b := by
          by_cases hb3 : b * 5 < 5
          · rw [patternIndexPre_hi4 hb2 hb3]
          · rw [patternIndexPre_hi5 hb3]; omega
        omega
    · by_cases ha3 : a * 5 < 5
      · rw [patternIndexPre_hi4 ha2 ha3]
        have hb2 : ¬ b * 5 < 7/2 := by push_neg at ha2 ⊢; linarith
        by_cases hb3 : b * 5 < 5
        · rw [patternIndexPre_hi4 hb2 hb3]
        · rw [patternIndexPre_hi5 hb3]; omega
      · have hb3 : ¬ b * 5 < 5 := by push_neg at ha3 ⊢; linarith
        rw [patternIndexPre_hi5 ha3, patternIndexPre_hi5 hb3]

theorem patternIndexOf_mono {a b : ℚ} (h : a ≤ b) :
    patternIndexOf a ≤ patternIndexOf b := by
  unfold patternIndexOf clampI
  exact min_le_min (max_le_max (patternIndexPre_mono h) le_rfl) le_rfl

theorem patternIndexOf_range (a : ℚ) : 0 ≤ patternIndexOf a ∧ patternIndexOf a ≤ 5 := by
  unfold patternIndexOf clampI
  exact ⟨le_min (le_max_right _ _) (by omega), min_le_right _ _⟩

/-- C1: for every luminance `l ∈ [0,1]` and inversion offset `o`, the
pattern-index selection function (`scaled = (o - l) * 5`; index `0` when
`scaled < 0.5`, `floor(scaled * 0.8) + 1` when `scaled < 3.5`, `4` when
`scaled < 5.0`, `5` otherwise; clamped to `[0,5]`) returns an integer in
`[0,5]` and is monotone non-decreasing in `o - l`. -/
theorem C1_patternIndex_range_mono (o l₁ l₂ : ℚ)
    (hl₁ : 0 ≤ l₁) (hl₁' : l₁ ≤ 1) (hl₂ : 0 ≤ l₂) (hl₂' : l₂ ≤ 1) :
    (0 ≤ patternIndexOf (o - l₁) ∧ patternIndexOf (o - l₁) ≤ 5) ∧
    (o - l₁ ≤ o - l₂ → patternIndexOf (o - l₁) ≤ patternIndexOf (o - l₂)) :=
  ⟨patternIndexOf_range _, fun h => patternIndexOf_mono h⟩

theorem C1_witness :
    (0 ≤ patternIndexOf (85/100 - 1) ∧ patternIndexOf (85/100 - 1) ≤ 5) ∧
    patternIndexOf (85/100 - 1) ≤ patternIndexOf (85/100 - 0) :=
  ⟨(C1_patternIndex_range_mono (85/100) 1 0 zero_le_one le_rfl le_rfl zero_le_one).1,
   (C1_patternIndex_range_mono (85/100) 1 0 zero_le_one le_rfl le_rfl zero_le_one).2
      (by norm_num)⟩

example : patternIndexOf (85/100) = 4 := by
  norm_num [patternIndexOf, patternIndexPre, clampI]

example : patternIndexOf (-15/100) = 0 := by
  norm_num [patternIndexOf, patternIndexPre, clampI]

example : patternIndexOf (1/2) = 3 := by
  norm_num [patternIndexOf, patternIndexPre, clampI]

example : patternIndexOf 1 = 5 := by
  norm_num [patternIndexOf, patternIndexPre, clampI]

/-! ### Color adjustment chain -/

theorem clamp01_mem (x : ℚ) : 0 ≤ clamp01 x ∧ clamp01 x ≤ 1 := by
  unfold clamp01
  exact ⟨le_min (le_max_right _ _) zero_le_one, min_le_right _ _⟩

/-- C2: `processImageColor` applies exposure, then brightness, then
contrast, then saturation, in that fixed order; each of the first three
steps clamps its result into `[0,1]`; the grayscale blend of the saturation
step uses the luminance weights `(0.299, 0.587, 0.114)`; saturation `1` is
the identity on the post-contrast color and saturation `0` yields pure
grayscale; and no clamp follows the saturation step, so a saturation above
`1` can produce components outside `[0,1]` (witnessed by the red channel
`1.701` for input `(1,0,0)` at saturation `2`). -/
theorem C2_color_pipeline :
    (∀ c gain brightness contrast saturation,
        processImageColor c gain brightness contrast saturation =
          adjustSaturation
            (adjustContrast (adjustBrightness (adjustExposure c gain) brightness) contrast)
            saturation) ∧
    (∀ c gain, inUnitCube (adjustExposure c gain)) ∧
    (∀ c brightness, inUnitCube (adjustBrightness c brightness)) ∧
    (∀ c contrast, inUnitCube (adjustContrast c contrast)) ∧
    (∀ c, adjustSaturation c 1 = c) ∧
    (∀ c, adjustSaturation c 0 =
        ⟨calculateLuminance c, calculateLuminance c, calculateLuminance c⟩) ∧
    (∀ c, calculateLuminance c = 299/1000 * c.r + 587/1000 * c.g + 114/1000 * c.b) ∧
    (processImageColor ⟨1, 0, 0⟩ 1 0 1 2).r = 1701/1000 := by
  refine ⟨fun _ _ _ _ _ => rfl, ?_, ?_, ?_, ?_, ?_, fun _ => rfl, ?_⟩
  · intro c gain
    exact ⟨(clamp01_mem _).1, (clamp01_mem _).2, (clamp01_mem _).1, (clamp01_mem _).2,
           (clamp01_mem _).1, (clamp01_mem _).2⟩
  · intro c brightness
    exact ⟨(clamp01_mem _).1, (clamp01_mem _).2, (clamp01_mem _).1, (clamp01_mem _).2,
           (clamp01_mem _).1, (clamp01_mem _).2⟩
  · intro c contrast
    exact ⟨(clamp01_mem _).1, (clamp01_mem _).2, (clamp01_mem _).1, (clamp01_mem _).2,
           (clamp01_mem _).1, (clamp01_mem _).2⟩
  · intro c
    obtain ⟨r, g, b⟩ := c
    unfold adjustSaturation glslMix
    norm_num
  · intro c
    obtain ⟨r, g, b⟩ := c
    unfold adjustSaturation glslMix
    norm_num
  · norm_num [processImageColor, adjustExposure, adjustBrightness, adjustContrast,
      adjustSaturation, glslMix, clamp01, calculateLuminance]

/-! ### Ping-pong buffer pair -/

/-- C9: swapping a `DoubleFBO` twice restores the original read/write
assignment, a swap exchanges the two roles, and whenever the pair starts
with two distinct buffers, after any number of swaps exactly one of the two
original buffers is the read target and the other is the write target. -/
theorem C9_swap_involution {α : Type} (f : DoubleFBO α) (h : f.read ≠ f.write) :
    f.swap.swap = f ∧ f.swap.read = f.write ∧ f.swap.write = f.read ∧
    (∀ n : ℕ,
      ((DoubleFBO.swap)^[n] f).read ≠ ((DoubleFBO.swap)^[n] f).write ∧
      (((DoubleFBO.swap)^[n] f).read = f.read ∧ ((DoubleFBO.swap)^[n] f).write = f.write ∨
       ((DoubleFBO.swap)^[n] f).read = f.write ∧ ((DoubleFBO.swap)^[n] f).write = f.read)) := by
  refine ⟨rfl, rfl, rfl, ?_⟩
  intro n
  induction n with
  | zero => exact ⟨h, Or.inl ⟨rfl, rfl⟩⟩
  | succ n ih =>
    rw [Function.iterate_succ_apply']
    obtain ⟨hne, hc⟩ := ih
    refine ⟨Ne.symm hne, ?_⟩
    rcases hc with ⟨h1, h2⟩ | ⟨h1, h2⟩
    · exact Or.inr ⟨h2, h1⟩
    · exact Or.inl ⟨h2, h1⟩

theorem C9_witness :
    ((⟨0, 1⟩ : DoubleFBO ℤ).swap.swap = ⟨0, 1⟩) ∧
    ((DoubleFBO.swap)^[3] (⟨0, 1⟩ : DoubleFBO ℤ)).read ≠
      ((DoubleFBO.swap)^[3] (⟨0, 1⟩ : DoubleFBO ℤ)).write :=
  ⟨(C9_swap_involution (⟨0, 1⟩ : DoubleFBO ℤ) (by decide)).1,
   ((C9_swap_involution (⟨0, 1⟩ : DoubleFBO ℤ) (by decide)).2.2.2 3).1⟩

/-! ### Regular-pattern fallback rule -/

/-- In light mode the regular palette color is pure white (all channels at
least `0.999`) exactly when the sampled pattern alpha is below `0.001`:
every non-background palette entry is at most `0.99`. -/
theorem regularNeedsFallback_light_iff (patternIndex : ℤ) (patternAlpha : ℚ) :
    regularNeedsFallback (getColorForIntensityRegular false patternIndex patternAlpha) ↔
      patternAlpha < 1/1000 := by
  unfold getColorForIntensityRegular regularNeedsFallback backgroundColorOf
  simp only [Bool.false_eq_true, if_false]
  split_ifs with h1 h2 h3 h4 h5 <;> norm_num <;> first | exact h1 | exact le_of_not_lt h1

/-- In dark mode the regular palette never reaches the white threshold, so
the fallback never triggers on a dark-mode palette color. -/
theorem regularNeedsFallback_dark (patternIndex : ℤ) (patternAlpha : ℚ) :
    ¬ regularNeedsFallback (getColorForIntensityRegular true patternIndex patternAlpha) := by
  unfold getColorForIntensityRegular regularNeedsFallback backgroundColorOf
  simp only [if_true]
  split_ifs <;> norm_num

/-- The all-empty atlas: every sample has zero alpha. -/
def emptyAtlas : ℚ × ℚ → RGBA := fun _ => ⟨0, 0, 0, 0⟩

/-- C5 counterexample: with an empty fallback sample, the shader substitutes
the background color — pure white `(1,1,1)` in light mode and black
`(0,0,0)` in dark mode — not a fixed light-gray: the only light-gray
constant of the block, `(0.925, 0.925, 0.925)`, is what the NON-empty
branch substitutes. -/
theorem C5_counterexample :
    applyRegularFallback emptyAtlas 4 false 0 (0, 0) ⟨1, 1, 1⟩ = ⟨1, 1, 1⟩ ∧
    applyRegularFallback emptyAtlas 4 true 0 (0, 0) ⟨1, 1, 1⟩ = ⟨0, 0, 0⟩ ∧
    ((⟨1, 1, 1⟩ : RGB) ≠ ⟨925/1000, 925/1000, 925/1000⟩) := by
  refine ⟨?_, ?_, by norm_num⟩ <;>
    norm_num [applyRegularFallback, regularNeedsFallback, emptyAtlas, samplePatternAtlas,
      fallbackColumn, backgroundColorOf]

/-- C5 (amended): whenever the resolved regular-pattern color is pure white
(all channels at least the `0.999` white threshold), the shader re-samples
the regular atlas at column `columns - 2` for pattern indices at most `2`
and `columns - 3` for higher indices, and substitutes the background color
(white in light mode, black in dark mode) when that fallback sample is also
empty (alpha below `0.001`), else the fixed light-gray
`(0.925, 0.925, 0.925)`; a color below the threshold is left unchanged; and
in light mode the resolved color is pure white exactly when the sampled
pattern cell was empty, while in dark mode the fallback never triggers. -/
theorem C5_fallback_substitution (atlas : ℚ × ℚ → RGBA) (atlasColumns patternIndex : ℤ)
    (darkMode : Bool) (patternUV : ℚ × ℚ) (regularColor : RGB)
    (h : regularNeedsFallback regularColor) :
    applyRegularFallback atlas atlasColumns darkMode patternIndex patternUV regularColor =
      (if (samplePatternAtlas atlas atlasColumns
            (fallbackColumn atlasColumns patternIndex) patternUV).a < 1/1000
       then backgroundColorOf darkMode
       else ⟨925/1000, 925/1000, 925/1000⟩) ∧
    fallbackColumn atlasColumns patternIndex =
      (if patternIndex ≤ 2 then atlasColumns - 2 else atlasColumns - 3) ∧
    (∀ c, ¬ regularNeedsFallback c →
      applyRegularFallback atlas atlasColumns darkMode patternIndex patternUV c = c) ∧
    (∀ a, regularNeedsFallback (getColorForIntensityRegular false patternIndex a) ↔
      a < 1/1000) ∧
    (∀ a, ¬ regularNeedsFallback (getColorForIntensityRegular true patternIndex a)) := by
  refine ⟨?_, rfl, ?_, fun a => regularNeedsFallback_light_iff _ _,
    fun a => regularNeedsFallback_dark _ _⟩
  · unfold applyRegularFallback
    rw [if_pos h]
  · intro c hc
    unfold applyRegularFallback
    rw [if_neg hc]

theorem C5_witness :
    applyRegularFallback emptyAtlas 6 false 3 (1/2, 1/2) ⟨1, 1, 1⟩ =
      (if (samplePatternAtlas emptyAtlas 6 (fallbackColumn 6 3) (1/2, 1/2)).a < 1/1000
       then backgroundColorOf false else ⟨925/1000, 925/1000, 925/1000⟩) :=
  (C5_fallback_substitution emptyAtlas 6 3 false (1/2, 1/2) ⟨1, 1, 1⟩
    (by norm_num [regularNeedsFallback])).1

/-! ### Configuration plumbing into the pattern pass -/

/-- C6: the `luminanceOffset` and `invertLuminance` props accepted by
`Card3DAscii` never reach the ascii pattern pass. The per-frame uniform
assignment is invariant under any change of the two props, and the shader
inverts with the literal constant `0.85` unconditionally; at luminance `0`
the shader computes index `4` from the hardcoded `0.85`, while an offset of
`0.5` would give index `3`, so the configured offset is observably dead. -/
theorem C6_offset_options_ignored :
    (∀ (cfg : Card3DCfg) (x : ℚ) (b : Bool),
        asciiUniformsOf { cfg with luminanceOffset := x, invertLuminance := b } =
          asciiUniformsOf cfg) ∧
    (∀ lum, shaderPatternIndex lum = patternIndexOf (85/100 - lum)) ∧
    shaderPatternIndex 0 = 4 ∧ patternIndexOf (1/2 - 0) = 3 ∧ (4 : ℤ) ≠ 3 := by
  refine ⟨fun cfg x b => rfl, fun lum => rfl, ?_, ?_, by decide⟩
  · norm_num [shaderPatternIndex, invertedLuminance, patternIndexOf, patternIndexPre, clampI]
  · norm_num [patternIndexOf, patternIndexPre, clampI]

/-- A configuration whose tile size is zero. -/
def cfgTileZero : Card3DCfg :=
  ⟨0, true, false, 1, 0, 1, 0, 1, 85/100, 1/10, 1/20, 1, false, true⟩

/-- C7 counterexample: with tile size `0`, the value reaching the shader's
`uBaseTileSize` (the divisor of the per-pixel tile math) is `0` — it is
neither rejected nor clamped to a minimum of `1`. -/
theorem C7_counterexample :
    (asciiUniformsOf cfgTileZero).uBaseTileSize = 0 ∧
    ¬ (1 ≤ (asciiUniformsOf cfgTileZero).uBaseTileSize) :=
  ⟨rfl, by norm_num [asciiUniformsOf, cfgTileZero]⟩

/-- C7 (amended): the configured tile size is forwarded to the shader's
`uBaseTileSize` uniform unmodified; no rejection and no clamping to a
positive minimum happens anywhere between the component prop and the
per-pixel tile division. -/
theorem C7_tileSize_passthrough (cfg : Card3DCfg) :
    (asciiUniformsOf cfg).uBaseTileSize = cfg.tileSize := rfl

/-! ### Per-frame pass sequencing -/

theorem mem_scene3DInitPasses {cfg : Scene3DCfg} {st : Scene3DState} {p : Pass}
    (hp : p ∈ scene3DInitPasses cfg st) : p = Pass.fillDensity := by
  unfold scene3DInitPasses at hp
  split_ifs at hp <;> simp_all

theorem mem_scene3DSplatPasses {cfg : Scene3DCfg} {st : Scene3DState} {p : Pass}
    (hp : p ∈ scene3DSplatPasses cfg st) :
    p = Pass.splatVelocity ∨ p = Pass.splatDensity := by
  unfold scene3DSplatPasses at hp
  split_ifs at hp <;> simp_all

theorem mem_scene3DAdvectPasses {cfg : Scene3DCfg} {p : Pass}
    (hp : p ∈ scene3DAdvectPasses cfg) :
    p = Pass.advectVelocity cfg.velocityDissipation ∨
    p = Pass.advectDensity cfg.densityDissipation := by
  unfold scene3DAdvectPasses at hp
  split_ifs at hp <;> simp_all

/-- Membership of a velocity-advection pass in a `Scene3DAscii` frame is
equivalent to the frame being active with the fluid-simulation gate open;
the pass carries the configured velocity dissipation, and its presence is
independent of the pointer-motion state (`isMouseInit`, `lastMouse`). -/
theorem advectVelocity_mem_scene3D {cfg : Scene3DCfg} {st : Scene3DState} {g : GLState}
    {d : ℚ} :
    Pass.advectVelocity d ∈ (scene3DFrame cfg st g).trace ↔
      ¬ scene3DEarlyReturn cfg ∧ scene3DSimGate cfg ∧ d = cfg.velocityDissipation := by
  unfold scene3DFrame scene3DInitPasses scene3DSplatPasses scene3DAdvectPasses
    scene3DTailPasses
  split_ifs <;> simp_all

/-- Membership of a density-advection pass in a `Scene3DAscii` frame, same
shape as the velocity case. -/
theorem advectDensity_mem_scene3D {cfg : Scene3DCfg} {st : Scene3DState} {g : GLState}
    {d : ℚ} :
    Pass.advectDensity d ∈ (scene3DFrame cfg st g).trace ↔
      ¬ scene3DEarlyReturn cfg ∧ scene3DSimGate cfg ∧ d = cfg.densityDissipation := by
  unfold scene3DFrame scene3DInitPasses scene3DSplatPasses scene3DAdvectPasses
    scene3DTailPasses
  split_ifs <;> simp_all

/-- Membership of a splat pass in a `Scene3DAscii` frame: the frame is
active, the simulation gate is open, the mouse ref is initialized and the
deadband is exceeded. -/
theorem splat_mem_scene3D {cfg : Scene3DCfg} {st : Scene3DState} {g : GLState} :
    (Pass.splatVelocity ∈ (scene3DFrame cfg st g).trace ∨
     Pass.splatDensity ∈ (scene3DFrame cfg st g).trace) ↔
      ¬ scene3DEarlyReturn cfg ∧ scene3DSimGate cfg ∧ st.isMouseInit = true ∧
      (1/10 < |scene3DDeltaX cfg st| ∨ 1/10 < |scene3DDeltaY cfg st|) := by
  unfold scene3DFrame scene3DInitPasses scene3DSplatPasses scene3DAdvectPasses
    scene3DTailPasses
  split_ifs <;> simp_all

/-- C10: both per-frame callbacks leave the shared renderer state exactly as
saved on entry — the render target and the `autoClear` flag after the frame
equal the incoming values on every path, although an active frame rebinds
targets internally and blits with `autoClear` disabled (the `present` pass
always records `autoClear = false`). -/
theorem C10_renderer_state_restored (cfg : Scene3DCfg) (st : Scene3DState)
    (fcfg : FluidCfg) (fst : FluidState) (g : GLState) :
    (scene3DFrame cfg st g).gl = g ∧ (asciiFluidFrame fcfg fst g).gl = g ∧
    ((scene3DFrame cfg st g).trace = [] ∨
      Pass.present false ∈ (scene3DFrame cfg st g).trace) ∧
    ((asciiFluidFrame fcfg fst g).trace = [] ∨
      Pass.present false ∈ (asciiFluidFrame fcfg fst g).trace) := by
  refine ⟨?_, ?_, ?_, ?_⟩
  · unfold scene3DFrame
    split_ifs <;> rfl
  · unfold asciiFluidFrame
    split_ifs <;> rfl
  · unfold scene3DFrame
    split_ifs
    · exact Or.inl rfl
    · exact Or.inr (by simp [scene3DTailPasses])
  · unfold asciiFluidFrame
    split_ifs
    · exact Or.inl rfl
    · exact Or.inr (by simp)

/-- A `Scene3DAscii` frame with painting enabled but the pointer away:
textures loaded, density already initialized, card not hovered. -/
def c3cfg : Scene3DCfg :=
  ⟨true, true, false, true, false, (1/2, 1/2), 9/10, 98/100, 300, 150, 2⟩

/-- Refs for the pointer-away frame. -/
def c3st : Scene3DState := ⟨true, false, (-1, -1)⟩

/-- A renderer state before a frame: canvas target, `autoClear` on. -/
def glInit : GLState := ⟨none, true⟩

/-- C3 counterexample: in `Scene3DAscii`, a frame of an active,
painting-enabled effect with the pointer not hovering performs NO advection
of either field — the whole fluid-simulation block (splat and advection) is
inside the hover gate, so the fields are not advected regardless of
pointer activity. -/
theorem C3_counterexample :
    c3cfg.shaderAscii = true ∧ c3cfg.atlasesLoaded = true ∧
    c3cfg.enablePainting = true ∧ c3cfg.isCardHovered = false ∧
    (scene3DFrame c3cfg c3st glInit).trace =
      [Pass.capture, Pass.compositeAscii, Pass.present false] ∧
    (¬ ∃ d, Pass.advectVelocity d ∈ (scene3DFrame c3cfg c3st glInit).trace) ∧
    (¬ ∃ d, Pass.advectDensity d ∈ (scene3DFrame c3cfg c3st glInit).trace) := by
  have htr : (scene3DFrame c3cfg c3st glInit).trace =
      [Pass.capture, Pass.compositeAscii, Pass.present false] := by
    norm_num [scene3DFrame, scene3DEarlyReturn, scene3DSimGate, scene3DInitPasses,
      scene3DSplatPasses, scene3DAdvectPasses, scene3DTailPasses, c3cfg, c3st, glInit]
  refine ⟨rfl, rfl, rfl, rfl, htr, ?_, ?_⟩
  · rintro ⟨d, hd⟩
    rw [htr] at hd
    simp at hd
  · rintro ⟨d, hd⟩
    rw [htr] at hd
    simp at hd

/-- C3 (amended): in the 2D-image component `CardAsciiPattern`, every frame
with the textures loaded advects both fields regardless of pointer
activity, with dissipations `0.9` (velocity) and `0.96` (density); in the
3D-card component `Scene3DAscii`, both fields are advected with the
configured dissipations exactly when the fluid block's gate is open
(painting enabled, card hovered, pointer position valid) — within such a
step the advections run regardless of pointer motion, splat or deadband
state; the dissipation defaults `0.9` and `0.98` lie in `(0,1)`; and the
advection pass resamples the source at `uv - dt * velocity(uv) * texelSize`
and scales by the dissipation. -/
theorem C3_advection_per_step :
    (∀ (cfg : FluidCfg) (st : FluidState) (g : GLState), cfg.texturesLoaded = true →
        Pass.advectVelocity (9/10) ∈ (asciiFluidFrame cfg st g).trace ∧
        Pass.advectDensity (96/100) ∈ (asciiFluidFrame cfg st g).trace) ∧
    (∀ (cfg : Scene3DCfg) (st : Scene3DState) (g : GLState) (d : ℚ),
        Pass.advectVelocity d ∈ (scene3DFrame cfg st g).trace ↔
          ¬ scene3DEarlyReturn cfg ∧ scene3DSimGate cfg ∧ d = cfg.velocityDissipation) ∧
    (∀ (cfg : Scene3DCfg) (st : Scene3DState) (g : GLState) (d : ℚ),
        Pass.advectDensity d ∈ (scene3DFrame cfg st g).trace ↔
          ¬ scene3DEarlyReturn cfg ∧ scene3DSimGate cfg ∧ d = cfg.densityDissipation) ∧
    (0 < velocityDissipationDefault ∧ velocityDissipationDefault < 1 ∧
     0 < densityDissipationDefault ∧ densityDissipationDefault < 1 ∧
     (0 : ℚ) < 9/10 ∧ (9/10 : ℚ) < 1 ∧ (0 : ℚ) < 96/100 ∧ (96/100 : ℚ) < 1) ∧
    (∀ dt texelSize dissipation velocity source uv,
        advect dt texelSize dissipation velocity source uv =
          (dissipation * (source (uv.1 - dt * (velocity uv).1 * texelSize.1,
                                  uv.2 - dt * (velocity uv).2 * texelSize.2)).1,
           dissipation * (source (uv.1 - dt * (velocity uv).1 * texelSize.1,
                                  uv.2 - dt * (velocity uv).2 * texelSize.2)).2.1,
           dissipation * (source (uv.1 - dt * (velocity uv).1 * texelSize.1,
                                  uv.2 - dt * (velocity uv).2 * texelSize.2)).2.2)) := by
  refine ⟨?_, fun cfg st g d => advectVelocity_mem_scene3D,
    fun cfg st g d => advectDensity_mem_scene3D, ?_, fun _ _ _ _ _ _ => rfl⟩
  · intro cfg st g h
    unfold asciiFluidFrame
    rw [if_neg (by simp [h])]
    constructor <;> simp
  · refine ⟨?_, ?_, ?_, ?_, by norm_num, by norm_num, by norm_num, by norm_num⟩ <;>
      norm_num [velocityDissipationDefault, densityDissipationDefault]

/-- The 2D-image component's configuration for a loaded, idle frame. -/
def c3fluidCfg : FluidCfg := ⟨true, false, false, (-1, -1), 300, 150, 2⟩

/-- The 2D-image component's refs for that frame. -/
def c3fluidSt : FluidState := ⟨false, (-1, -1)⟩

theorem C3_witness :
    Pass.advectVelocity (9/10) ∈ (asciiFluidFrame c3fluidCfg c3fluidSt glInit).trace ∧
    Pass.advectDensity (96/100) ∈ (asciiFluidFrame c3fluidCfg c3fluidSt glInit).trace :=
  C3_advection_per_step.1 c3fluidCfg c3fluidSt glInit rfl

/-- The ordering stated by the spec pipeline: every capture pass occurs
strictly before every simulate (splat or advect) pass of the same frame. -/
def captureBeforeSimulate (t : List Pass) : Prop :=
  ∀ i j : Fin t.length, t.get i = Pass.capture → isSimulatePass (t.get j) = true →
    (i : ℕ) < (j : ℕ)

/-- A `Scene3DAscii` frame with an active splat: painting enabled, card
hovered, mouse moved from `(0,0)` to `(1/2,1/2)`, density initialized. -/
def c4cfg : Scene3DCfg :=
  ⟨true, true, false, true, true, (1/2, 1/2), 9/10, 98/100, 300, 150, 2⟩

/-- Refs for the active-splat frame. -/
def c4st : Scene3DState := ⟨true, true, (0, 0)⟩

/-- C4 counterexample: in the frame trace the scene CAPTURE pass runs AFTER
the whole fluid SIMULATE stage (splats and advections), not before it, so
the claimed order CAPTURE → SIMULATE is violated. -/
theorem C4_counterexample :
    ¬ captureBeforeSimulate (scene3DFrame c4cfg c4st glInit).trace := by
  have htr : (scene3DFrame c4cfg c4st glInit).trace =
      [Pass.splatVelocity, Pass.splatDensity, Pass.advectVelocity (9/10),
       Pass.advectDensity (98/100), Pass.capture, Pass.compositeAscii,
       Pass.present false] := by
    norm_num [scene3DFrame, scene3DEarlyReturn, scene3DSimGate, scene3DInitPasses,
      scene3DSplatPasses, scene3DAdvectPasses, scene3DTailPasses, scene3DDeltaX,
      scene3DDeltaY, c4cfg, c4st, glInit]
  rw [htr]
  intro hall
  have h := hall ⟨4, by decide⟩ ⟨2, by decide⟩ rfl rfl
  simp at h

/-- C4 (amended): an active `Scene3DAscii` frame runs SIMULATE (fluid splat
and advect, only for the ascii effect with painting enabled and the pointer
hovering with a valid position, preceded by the one-time density fill) THEN
CAPTURE (scene render to the offscreen scene buffer) then COMPOSITE (into
an offscreen buffer sized `round(2 × logical resolution × device pixel
ratio)`), then PRESENT (blit with implicit clear disabled); when one of the
alternate filters is selected instead of the ascii pattern effect the
frame is exactly CAPTURE → COMPOSITE(filter) → PRESENT, with the SIMULATE
stage skipped entirely. -/
theorem C4_pass_order (cfg : Scene3DCfg) (st : Scene3DState) (g : GLState)
    (h : ¬ scene3DEarlyReturn cfg) :
    (∃ pre,
      (scene3DFrame cfg st g).trace =
        pre ++ [Pass.capture,
                if cfg.shaderAscii = true then Pass.compositeAscii else Pass.compositeFilter,
                Pass.present false] ∧
      (∀ p ∈ pre, isSimulatePass p = true ∨ p = Pass.fillDensity)) ∧
    (cfg.shaderAscii = false →
      (scene3DFrame cfg st g).trace =
        [Pass.capture, Pass.compositeFilter, Pass.present false]) ∧
    (scene3DFrame cfg st g).compositeSize =
      some (jsRound (cfg.width * 2 * cfg.dpr), jsRound (cfg.height * 2 * cfg.dpr)) := by
  refine ⟨⟨scene3DInitPasses cfg st ++ scene3DSplatPasses cfg st ++ scene3DAdvectPasses cfg,
    ?_, ?_⟩, ?_, ?_⟩
  · unfold scene3DFrame
    rw [if_neg h]
    simp [scene3DTailPasses]
  · intro p hp
    rcases List.mem_append.mp hp with hp' | hp'
    · rcases List.mem_append.mp hp' with hp'' | hp''
      · exact Or.inr (mem_scene3DInitPasses hp'')
      · rcases mem_scene3DSplatPasses hp'' with h' | h' <;> subst h' <;> exact Or.inl rfl
    · rcases mem_scene3DAdvectPasses hp' with h' | h' <;> subst h' <;> exact Or.inl rfl
  · intro hna
    unfold scene3DFrame
    rw [if_neg h]
    simp [scene3DInitPasses, scene3DSplatPasses, scene3DAdvectPasses, scene3DTailPasses,
      scene3DSimGate, hna]
  · unfold scene3DFrame
    rw [if_neg h]

theorem C4_witness :
    (scene3DFrame c4cfg c4st glInit).compositeSize =
      some (jsRound (c4cfg.width * 2 * c4cfg.dpr), jsRound (c4cfg.height * 2 * c4cfg.dpr)) :=
  (C4_pass_order c4cfg c4st glInit (by decide)).2.2

/-- C8: a splat pass runs only when the frame is active, the fluid gate is
open (painting enabled, pointer hovering with a valid position), the mouse
ref is initialized, and the scaled frame-to-frame displacement exceeds the
deadband `|delta * 100| > 0.1`; in particular, when the pointer displacement
is exactly `(0,0)` no splat pass runs at all, so neither the velocity field
nor the density field receives an injected impulse that step. -/
theorem C8_splat_guard :
    (∀ (cfg : Scene3DCfg) (st : Scene3DState) (g : GLState),
        (Pass.splatVelocity ∈ (scene3DFrame cfg st g).trace ∨
         Pass.splatDensity ∈ (scene3DFrame cfg st g).trace) →
        scene3DSimGate cfg ∧ st.isMouseInit = true ∧
        (1/10 < |scene3DDeltaX cfg st| ∨ 1/10 < |scene3DDeltaY cfg st|)) ∧
    (∀ (cfg : Scene3DCfg) (st : Scene3DState) (g : GLState),
        cfg.mouseUV = st.lastMouse →
        Pass.splatVelocity ∉ (scene3DFrame cfg st g).trace ∧
        Pass.splatDensity ∉ (scene3DFrame cfg st g).trace) := by
  constructor
  · intro cfg st g hm
    obtain ⟨-, h1, h2, h3⟩ := splat_mem_scene3D.mp hm
    exact ⟨h1, h2, h3⟩
  · intro cfg st g h
    have hx : scene3DDeltaX cfg st = 0 := by
      unfold scene3DDeltaX
      rw [h]
      ring
    have hy : scene3DDeltaY cfg st = 0 := by
      unfold scene3DDeltaY
      rw [h]
      ring
    constructor <;> intro hm
    · obtain ⟨-, -, -, hdb⟩ := splat_mem_scene3D.mp (Or.inl hm)
      rw [hx, hy] at hdb
      norm_num at hdb
    · obtain ⟨-, -, -, hdb⟩ := splat_mem_scene3D.mp (Or.inr hm)
      rw [hx, hy] at hdb
      norm_num at hdb

/-- A `Scene3DAscii` frame where the pointer did not move: the current
mouse position equals the last recorded one. -/
def c8cfg : Scene3DCfg :=
  ⟨true, true, false, true, true, (1/2, 1/2), 9/10, 98/100, 300, 150, 2⟩

/-- Refs with `lastMouse` equal to the current mouse position. -/
def c8st : Scene3DState := ⟨true, true, (1/2, 1/2)⟩

theorem C8_witness :
    Pass.splatVelocity ∉ (scene3DFrame c8cfg c8st glInit).trace ∧
    Pass.splatDensity ∉ (scene3DFrame c8cfg c8st glInit).trace :=
  C8_splat_guard.2 c8cfg c8st glInit rfl

end AsciiEffects

